import Mathlib

/-!
Verification of the Blink `DeviceOrientationEventPump`
(qtwebengine/src/3rdparty/chromium/third_party/blink/renderer/modules/
device_orientation/device_orientation_event_pump.cc).

Angles are modelled as rationals; a NaN euler component is modelled as
`Option.none`.  The per-channel sensor lifecycle (`SensorEntry` of the
`DeviceSensorEventPump` base class) is not part of the source fragment,
so it is modelled from the spec (section 3 "SensorChannel state" and
section 4.1), as noted on each definition.
-/

namespace DeviceOrientation

/-- Modelled from the spec: lifecycle states of a `SensorChannel`
(spec section 3): Idle, Initializing, Active, ShouldSuspend, Suspended,
Errored. -/
inductive SensorState where
  | Idle
  | Initializing
  | Active
  | ShouldSuspend
  | Suspended
  | Errored
deriving DecidableEq, Repr, Fintype

/-- Modelled from the spec: `Start()` moves `Idle/Suspended → Initializing`
(section 3); `Errored` is stable until the next `Start()` (section 3) and
recovery of a failed channel happens through an external `Stop()/Start()`
cycle (section 7), so `Start()` also retries an `Errored` channel.
`Start()` is a no-op if already `Active` or `Initializing` (section 4.1). -/
def SensorState.startRequest : SensorState → SensorState
  | .Idle => .Initializing
  | .Suspended => .Initializing
  | .Errored => .Initializing
  | s => s

/-- Modelled from the spec: `Stop()` moves `Initializing → ShouldSuspend`
and `Active → Suspended`; stopping an already-stopped channel is a no-op
(sections 3, 4.1, 4.2). -/
def SensorState.stopRequest : SensorState → SensorState
  | .Initializing => .ShouldSuspend
  | .Active => .Suspended
  | s => s

/-- Modelled from the spec: resolution of a pending start request by the
sensor service.  A successful connection moves `Initializing → Active`; a
channel stopped mid-initialization (`ShouldSuspend`) is actually suspended
once initialization completes; failure at any point moves to `Errored`
(section 3). -/
def SensorState.resolve (ok : Bool) : SensorState → SensorState
  | .Initializing => if ok then .Active else .Errored
  | .ShouldSuspend => if ok then .Suspended else .Errored
  | s => s

/-- Modelled from the spec: whether the channel currently holds a sensor
subscription handle (the `sensor` member tested by
`DidStartIfPossible`).  A handle exists from the start request onwards and
is dropped when the channel has errored out; an `Idle` channel never had
one (sections 3, 4.1, 7). -/
def SensorState.hasSensor : SensorState → Bool
  | .Idle => false
  | .Errored => false
  | _ => true

/-- Modelled from the spec: `ReadyOrErrored()` is true once the channel has
reached a terminal readiness state for this attempt (`Active`, `Errored`,
or `Suspended`); false while still `Initializing` (section 4.1). -/
def SensorState.ReadyOrErrored : SensorState → Bool
  | .Active => true
  | .Errored => true
  | .Suspended => true
  | _ => false

/-- A channel holds a live subscription exactly when it is `Active`
(spec section 4.2: "at most one channel may hold a live (`Active`)
subscription"). -/
def SensorState.isLive (s : SensorState) : Bool := s = SensorState.Active

/-- One sensor reading in the shared buffer: a timestamp and the three
euler components (z, x, y); `none` models a NaN component. -/
structure Reading where
  timestamp : ℚ
  eulerX : Option ℚ
  eulerY : Option ℚ
  eulerZ : Option ℚ
deriving DecidableEq, Repr

/-- One sensor channel of the pump: its lifecycle state, whether the
shared reading buffer is mapped and readable, and the current reading. -/
structure Channel where
  sensor_state : SensorState
  readable : Bool
  reading : Reading
deriving DecidableEq, Repr

def Channel.startRequest (c : Channel) : Channel :=
  { c with sensor_state := c.sensor_state.startRequest }

def Channel.stopRequest (c : Channel) : Channel :=
  { c with sensor_state := c.sensor_state.stopRequest }

def Channel.resolve (c : Channel) (ok : Bool) : Channel :=
  { c with sensor_state := c.sensor_state.resolve ok }

/-- Modelled from the spec: `SensorReadingCouldBeRead()` is true only when
the channel is `Active` and the underlying reading buffer is available
(section 4.1); staleness of the value itself is checked by the caller via
the timestamp. -/
def Channel.SensorReadingCouldBeRead (c : Channel) : Bool :=
  (c.sensor_state = SensorState.Active) && c.readable

/-- `device::OrientationData`: three angles with presence flags, the
`absolute` source flag and the `all_available_sensors_are_active` flag. -/
structure OrientationData where
  alpha : ℚ
  beta : ℚ
  gamma : ℚ
  has_alpha : Bool
  has_beta : Bool
  has_gamma : Bool
  absolute : Bool
  all_available_sensors_are_active : Bool
deriving DecidableEq, Repr

/-- Default-constructed `device::OrientationData`: angles zero and absent,
not absolute, sensors not all active. -/
def OrientationData.dflt : OrientationData :=
  { alpha := 0, beta := 0, gamma := 0,
    has_alpha := false, has_beta := false, has_gamma := false,
    absolute := false, all_available_sensors_are_active := false }

/-- `DeviceOrientationEventPump::kOrientationThreshold = 0.1`. -/
def kOrientationThreshold : ℚ := 1 / 10

/-- `IsAngleDifferentThreshold` (anonymous namespace of the source): true
when the presence flags differ, otherwise when both angles are present and
their absolute difference reaches the threshold. -/
def IsAngleDifferentThreshold (has_angle1 : Bool) (angle1 : ℚ)
    (has_angle2 : Bool) (angle2 : ℚ) : Bool :=
  if has_angle1 ≠ has_angle2 then true
  else has_angle1 && decide (kOrientationThreshold ≤ |angle1 - angle2|)

/-- `IsSignificantlyDifferent` (anonymous namespace of the source). -/
def IsSignificantlyDifferent (data1 data2 : OrientationData) : Bool :=
  IsAngleDifferentThreshold data1.has_alpha data1.alpha data2.has_alpha data2.alpha ||
  IsAngleDifferentThreshold data1.has_beta data1.beta data2.has_beta data2.beta ||
  IsAngleDifferentThreshold data1.has_gamma data1.gamma data2.has_gamma data2.gamma

/-- `DeviceOrientationEventPump` state: the mode flag, the two channels,
the two fallback flags, the sensor-provider handle, the stored last sample
`data_`, and the log of samples delivered to the listener. -/
structure Pump where
  absolute_ : Bool
  relative_orientation_sensor_ : Channel
  absolute_orientation_sensor_ : Channel
  fall_back_to_absolute_orientation_sensor_ : Bool
  should_suspend_absolute_orientation_sensor_ : Bool
  sensor_provider_ : Bool
  data_ : OrientationData
  delivered : List OrientationData
deriving DecidableEq, Repr

/-- The pump constructor (source lines 44-55): sensors idle, fallback flag
set to the negation of the `absolute` argument, no provider yet. -/
def Pump.create (absolute : Bool) : Pump :=
  { absolute_ := absolute,
    relative_orientation_sensor_ :=
      { sensor_state := .Idle, readable := false,
        reading := { timestamp := 0, eulerX := none, eulerY := none, eulerZ := none } },
    absolute_orientation_sensor_ :=
      { sensor_state := .Idle, readable := false,
        reading := { timestamp := 0, eulerX := none, eulerY := none, eulerZ := none } },
    fall_back_to_absolute_orientation_sensor_ := !absolute,
    should_suspend_absolute_orientation_sensor_ := false,
    sensor_provider_ := false,
    data_ := OrientationData.dflt,
    delivered := [] }

/-- `DeviceOrientationEventPump::SendStartMessage` (source lines 61-79):
bind the provider if absent; in absolute mode start the absolute channel,
otherwise set the fallback flag, clear the deferred-suspend flag and start
the relative channel. -/
def Pump.SendStartMessage (p : Pump) : Pump :=
  let p := { p with sensor_provider_ := true }
  if p.absolute_ then
    { p with absolute_orientation_sensor_ := p.absolute_orientation_sensor_.startRequest }
  else
    { p with fall_back_to_absolute_orientation_sensor_ := true,
             should_suspend_absolute_orientation_sensor_ := false,
             relative_orientation_sensor_ := p.relative_orientation_sensor_.startRequest }

/-- `DeviceOrientationEventPump::SendStopMessage` (source lines 81-109):
stop the relative channel; if it is now `ShouldSuspend` while the fallback
is still pending, record that the fallback sensor must be suspended on
start; stop the absolute channel; reset the cached `data_`. -/
def Pump.SendStopMessage (p : Pump) : Pump :=
  let p := { p with relative_orientation_sensor_ := p.relative_orientation_sensor_.stopRequest }
  let p :=
    if p.relative_orientation_sensor_.sensor_state = SensorState.ShouldSuspend ∧
       p.fall_back_to_absolute_orientation_sensor_ then
      { p with should_suspend_absolute_orientation_sensor_ := true }
    else p
  let p := { p with absolute_orientation_sensor_ := p.absolute_orientation_sensor_.stopRequest }
  { p with data_ := OrientationData.dflt }

/-- The guard of the fallback branch of `DidStartIfPossible` (source lines
125-126): not in absolute mode, the relative channel has no sensor handle,
the fallback flag is set and a provider handle exists. -/
def Pump.fallbackCond (p : Pump) : Bool :=
  !p.absolute_ && !p.relative_orientation_sensor_.sensor_state.hasSensor &&
  p.fall_back_to_absolute_orientation_sensor_ && p.sensor_provider_

/-- `DeviceOrientationEventPump::DidStartIfPossible` (source lines
124-140): on the first relative failure fall back to the absolute channel,
clearing the fallback flag; if a stop arrived meanwhile, immediately mark
the absolute channel `ShouldSuspend` and clear the deferred-suspend flag.
Otherwise delegate to the base class (which only notifies readiness and
changes none of the state modelled here). -/
def Pump.DidStartIfPossible (p : Pump) : Pump :=
  if p.fallbackCond then
    let p := { p with fall_back_to_absolute_orientation_sensor_ := false,
                      absolute_orientation_sensor_ := p.absolute_orientation_sensor_.startRequest }
    if p.should_suspend_absolute_orientation_sensor_ then
      { p with absolute_orientation_sensor_ :=
                 { p.absolute_orientation_sensor_ with sensor_state := SensorState.ShouldSuspend },
               should_suspend_absolute_orientation_sensor_ := false }
    else p
  else p

/-- `DeviceOrientationEventPump::SensorsReadyOrErrored` (source lines
142-153): both channels must report `ReadyOrErrored`. -/
def Pump.SensorsReadyOrErrored (p : Pump) : Bool :=
  if !p.relative_orientation_sensor_.sensor_state.ReadyOrErrored ||
     !p.absolute_orientation_sensor_.sensor_state.ReadyOrErrored then false
  else true

/-- The property asserted by the `DCHECK` in `SensorsReadyOrErrored`
(source lines 148-150), read as the spec reads it: not both channels hold
a live subscription. -/
def Pump.atMostOneLive (p : Pump) : Bool :=
  !(p.relative_orientation_sensor_.sensor_state.isLive &&
    p.absolute_orientation_sensor_.sensor_state.isLive)

/-- `DeviceOrientationEventPump::GetDataFromSharedMemory` (source lines
155-198), as a function of the pump state and the (default-constructed)
data passed in by `FireEvent`. -/
def Pump.GetDataFromSharedMemory (p : Pump) (data : OrientationData) : OrientationData :=
  let data := { data with all_available_sensors_are_active := true }
  if !p.absolute_ && p.relative_orientation_sensor_.SensorReadingCouldBeRead then
    let r := p.relative_orientation_sensor_.reading
    let data := { data with all_available_sensors_are_active := decide (r.timestamp ≠ 0) }
    if !data.all_available_sensors_are_active then data
    else
      { data with alpha := r.eulerZ.getD 0, beta := r.eulerX.getD 0, gamma := r.eulerY.getD 0,
                  has_alpha := r.eulerZ.isSome, has_beta := r.eulerX.isSome,
                  has_gamma := r.eulerY.isSome, absolute := false }
  else if p.absolute_orientation_sensor_.SensorReadingCouldBeRead then
    let r := p.absolute_orientation_sensor_.reading
    let data := { data with all_available_sensors_are_active := decide (r.timestamp ≠ 0) }
    if !data.all_available_sensors_are_active then data
    else
      { data with alpha := r.eulerZ.getD 0, beta := r.eulerX.getD 0, gamma := r.eulerY.getD 0,
                  has_alpha := r.eulerZ.isSome, has_beta := r.eulerX.isSome,
                  has_gamma := r.eulerY.isSome, absolute := true }
  else
    { data with absolute := p.absolute_ }

/-- `DeviceOrientationEventPump::ShouldFireEvent` (source lines 200-211),
with the stored sample `data_` made an explicit first argument. -/
def ShouldFireEvent (last data : OrientationData) : Bool :=
  if !data.all_available_sensors_are_active then false
  else if !data.has_alpha && !data.has_beta && !data.has_gamma then true
  else IsSignificantlyDifferent last data

/-- `DeviceOrientationEventPump::FireEvent` (source lines 111-122): build
the tick's sample from shared memory; when it should fire, store it as
`data_` and deliver it to the listener (modelled as appending to the
`delivered` log). -/
def Pump.FireEvent (p : Pump) : Pump :=
  let data := p.GetDataFromSharedMemory OrientationData.dflt
  if ShouldFireEvent p.data_ data then
    { p with data_ := data, delivered := p.delivered ++ [data] }
  else p

/-- The events the pump can undergo: the lifecycle messages and the tick
of the source, a direct readiness check, and the environment's resolution
of a pending start request on either channel.  Per the spec (section 4.2)
`DidStartIfPossible` runs when readiness becomes known, so each resolution
invokes it synchronously, exactly as the sensor-creation callback does. -/
inductive Event where
  | sendStart
  | sendStop
  | didStart
  | resolveRel (ok : Bool)
  | resolveAbs (ok : Bool)
  | tick
deriving DecidableEq, Repr, Fintype

/-- One step of the pump under an event. -/
def Pump.step (p : Pump) : Event → Pump
  | .sendStart => p.SendStartMessage
  | .sendStop => p.SendStopMessage
  | .didStart => p.DidStartIfPossible
  | .resolveRel ok =>
      Pump.DidStartIfPossible
        { p with relative_orientation_sensor_ := p.relative_orientation_sensor_.resolve ok }
  | .resolveAbs ok =>
      Pump.DidStartIfPossible
        { p with absolute_orientation_sensor_ := p.absolute_orientation_sensor_.resolve ok }
  | .tick => p.FireEvent

/-- Run a list of events from a state. -/
def Pump.run (p : Pump) : List Event → Pump
  | [] => p
  | e :: es => (p.step e).run es

/-- Whether the scheduler may emit this event now: `SendStartMessage` is
only issued from the stopped phase (the external scheduler drives
start/stop on lifecycle edges, spec section 6). -/
def guardOK (canStart : Bool) : Event → Bool
  | .sendStart => canStart
  | _ => true

/-- Phase tracking for the scheduling discipline: a start enters the
running phase, a stop returns to the stopped phase. -/
def nextCanStart (canStart : Bool) : Event → Bool
  | .sendStart => false
  | .sendStop => true
  | _ => canStart

/-- A trace is well scheduled when no second `SendStartMessage` occurs
without an intervening `SendStopMessage`. -/
def wellScheduled (canStart : Bool) : List Event → Bool
  | [] => true
  | e :: es => guardOK canStart e && wellScheduled (nextCanStart canStart e) es

/-- The finite control state of the pump: everything the lifecycle
transitions depend on, plus the scheduling phase. -/
structure Core where
  absolute : Bool
  relSt : SensorState
  absSt : SensorState
  fallBack : Bool
  suspendNext : Bool
  provider : Bool
  canStart : Bool
deriving DecidableEq, Repr

/-- `Core` is equivalent to a product of finite types. -/
def coreEquiv : Core ≃ Bool × SensorState × SensorState × Bool × Bool × Bool × Bool where
  toFun k := (k.absolute, k.relSt, k.absSt, k.fallBack, k.suspendNext, k.provider, k.canStart)
  invFun t := ⟨t.1, t.2.1, t.2.2.1, t.2.2.2.1, t.2.2.2.2.1, t.2.2.2.2.2.1, t.2.2.2.2.2.2⟩
  left_inv k := rfl
  right_inv t := rfl

instance : Fintype Core := Fintype.ofEquiv _ coreEquiv.symm

/-- A channel state that is `Active` or may still become `Active` without
a further start request. -/
def Wst (s : SensorState) : Bool :=
  s = SensorState.Initializing || s = SensorState.Active

/-- Inductive invariant of the well-scheduled control system: in absolute
mode the relative channel stays idle and the fallback flag stays clear; a
set fallback flag with a bound provider implies the relative channel still
holds its sensor handle; the two channels are never both `Active` or
heading for `Active`; in the stopped phase the absolute channel is not
heading for `Active`, the relative channel is not `Initializing`, and a
relative channel stopped mid-initialization with the fallback pending has
the deferred-suspend flag set. -/
def InvB (k : Core) : Bool :=
  (!k.absolute || (k.relSt = SensorState.Idle)) &&
  (!k.absolute || !k.fallBack) &&
  (!(k.fallBack && k.provider) || k.relSt.hasSensor) &&
  (!(Wst k.relSt && Wst k.absSt)) &&
  (!k.canStart || !Wst k.absSt) &&
  (!k.canStart || !(k.relSt = SensorState.Initializing)) &&
  (!(k.canStart && (k.relSt = SensorState.ShouldSuspend) && k.fallBack && k.provider) ||
    k.suspendNext)

/-- Scheduling phase after running a list of events. -/
def canStartAfter (c : Bool) : List Event → Bool
  | [] => c
  | e :: es => canStartAfter (nextCanStart c e) es

/-- The claim's notion of one axis differing significantly between the
stored sample and the candidate: the presence flag differs, or both are
present and the absolute difference reaches 0.1 degrees. -/
def axisDiffersSignificantly (hasL : Bool) (vL : ℚ) (hasC : Bool) (vC : ℚ) : Prop :=
  hasL ≠ hasC ∨ (hasL = true ∧ hasC = true ∧ kOrientationThreshold ≤ |vC - vL|)

/-- Projection of a pump (plus scheduling phase) onto its control state. -/
def Pump.core (p : Pump) (canStart : Bool) : Core :=
  { absolute := p.absolute_,
    relSt := p.relative_orientation_sensor_.sensor_state,
    absSt := p.absolute_orientation_sensor_.sensor_state,
    fallBack := p.fall_back_to_absolute_orientation_sensor_,
    suspendNext := p.should_suspend_absolute_orientation_sensor_,
    provider := p.sensor_provider_,
    canStart := canStart }

def Core.sendStart (k : Core) : Core :=
  let k := { k with provider := true, canStart := false }
  if k.absolute then { k with absSt := k.absSt.startRequest }
  else { k with fallBack := true, suspendNext := false, relSt := k.relSt.startRequest }

def Core.sendStop (k : Core) : Core :=
  let k := { k with relSt := k.relSt.stopRequest, canStart := true }
  let k :=
    if k.relSt = SensorState.ShouldSuspend ∧ k.fallBack then
      { k with suspendNext := true }
    else k
  { k with absSt := k.absSt.stopRequest }

def Core.fallbackCond (k : Core) : Bool :=
  !k.absolute && !k.relSt.hasSensor && k.fallBack && k.provider

def Core.didStart (k : Core) : Core :=
  if k.fallbackCond then
    let k := { k with fallBack := false, absSt := k.absSt.startRequest }
    if k.suspendNext then
      { k with absSt := SensorState.ShouldSuspend, suspendNext := false }
    else k
  else k

def Core.step (k : Core) : Event → Core
  | .sendStart => k.sendStart
  | .sendStop => k.sendStop
  | .didStart => k.didStart
  | .resolveRel ok => Core.didStart { k with relSt := k.relSt.resolve ok }
  | .resolveAbs ok => Core.didStart { k with absSt := k.absSt.resolve ok }
  | .tick => k

@[simp]
theorem Core.fallbackCond_mk (a : Bool) (r s : SensorState) (f n pr cs : Bool) :
    Core.fallbackCond ⟨a, r, s, f, n, pr, cs⟩ = (!a && !r.hasSensor && f && pr) := rfl

theorem Pump.core_SendStartMessage (p : Pump) (c : Bool) :
    p.SendStartMessage.core false = (p.core c).sendStart := by
  unfold Pump.SendStartMessage Core.sendStart
  by_cases h : p.absolute_ = true <;>
    simp [Pump.core, h, Channel.startRequest]

theorem Pump.core_SendStopMessage (p : Pump) (c : Bool) :
    p.SendStopMessage.core true = (p.core c).sendStop := by
  unfold Pump.SendStopMessage Core.sendStop
  by_cases h : p.relative_orientation_sensor_.sensor_state.stopRequest =
      SensorState.ShouldSuspend ∧ p.fall_back_to_absolute_orientation_sensor_ = true <;>
    simp [Pump.core, h, Channel.stopRequest]

theorem Pump.core_DidStartIfPossible (p : Pump) (c : Bool) :
    p.DidStartIfPossible.core c = (p.core c).didStart := by
  unfold Pump.DidStartIfPossible Core.didStart
  have hcond : Core.fallbackCond (p.core c) = p.fallbackCond := rfl
  rw [hcond]
  by_cases h : p.fallbackCond = true
  · by_cases hs : p.should_suspend_absolute_orientation_sensor_ = true <;>
      simp [Pump.core, h, hs, Channel.startRequest]
  · simp [Pump.core, h]

theorem Pump.core_resolveRel (p : Pump) (c : Bool) (ok : Bool) :
    Pump.core { p with relative_orientation_sensor_ := p.relative_orientation_sensor_.resolve ok } c
      = { p.core c with relSt := (p.core c).relSt.resolve ok } := rfl

theorem Pump.core_resolveAbs (p : Pump) (c : Bool) (ok : Bool) :
    Pump.core { p with absolute_orientation_sensor_ := p.absolute_orientation_sensor_.resolve ok } c
      = { p.core c with absSt := (p.core c).absSt.resolve ok } := rfl

theorem Pump.core_FireEvent (p : Pump) (c : Bool) :
    p.FireEvent.core c = p.core c := by
  unfold Pump.FireEvent
  by_cases h : ShouldFireEvent p.data_ (p.GetDataFromSharedMemory OrientationData.dflt) = true <;>
    simp [Pump.core, h]

/-- The pump step and the control-state step agree. -/
theorem Pump.core_step (p : Pump) (c : Bool) (e : Event) :
    (p.step e).core (nextCanStart c e) = (p.core c).step e := by
  cases e with
  | sendStart => exact p.core_SendStartMessage c
  | sendStop => exact p.core_SendStopMessage c
  | didStart => exact p.core_DidStartIfPossible c
  | resolveRel ok =>
      show Pump.core (Pump.DidStartIfPossible _) c = _
      rw [Pump.core_DidStartIfPossible, Pump.core_resolveRel]
      rfl
  | resolveAbs ok =>
      show Pump.core (Pump.DidStartIfPossible _) c = _
      rw [Pump.core_DidStartIfPossible, Pump.core_resolveAbs]
      rfl
  | tick => exact p.core_FireEvent c

set_option maxHeartbeats 4000000 in
/-- The invariant is preserved by every scheduler-permitted step. -/
theorem coreInv_step : ∀ (k : Core) (e : Event), InvB k = true →
    guardOK k.canStart e = true → InvB (k.step e) = true := by
  intro k
  obtain ⟨a, r, s, f, n, pr, cs⟩ := k
  revert a r s f n pr cs
  intro a
  cases a <;> intro r <;> cases r <;> intro s <;> cases s <;> intro f <;> cases f <;>
    intro n <;> cases n <;> intro pr <;> cases pr <;> intro cs <;> cases cs <;> decide

/-- The invariant holds after any well-scheduled run. -/
theorem InvB_run : ∀ (es : List Event) (p : Pump) (c : Bool),
    InvB (p.core c) = true → wellScheduled c es = true →
    InvB ((p.run es).core (canStartAfter c es)) = true := by
  intro es
  induction es with
  | nil => intro p c h _; exact h
  | cons e es ih =>
      intro p c h hw
      simp only [wellScheduled, Bool.and_eq_true] at hw
      have hstep : InvB ((p.step e).core (nextCanStart c e)) = true := by
        rw [Pump.core_step]
        exact coreInv_step (p.core c) e h hw.1
      exact ih (p.step e) (nextCanStart c e) hstep hw.2

/-- The invariant holds for a freshly constructed pump. -/
theorem InvB_create : ∀ (absolute : Bool), InvB ((Pump.create absolute).core true) = true := by
  intro a; cases a <;> decide

/-- The invariant forbids two simultaneously live channels. -/
theorem InvB_atMostOne (k : Core) (h : InvB k = true) :
    (!(k.relSt.isLive && k.absSt.isLive)) = true := by
  cases hrel : k.relSt <;> cases habs : k.absSt <;>
    simp_all [InvB, Wst, SensorState.isLive]

theorem atMostOneLive_of_core (p : Pump) (c : Bool) (h : InvB (p.core c) = true) :
    p.atMostOneLive = true :=
  InvB_atMostOne (p.core c) h

/-- C1 (counterexample): the claim quantifies over arbitrary sequences of
the pump's methods.  If `SendStartMessage` runs a second time with no
intervening `SendStopMessage` — after the relative channel failed and the
one-shot fallback already started the absolute channel — the restarted
relative channel and the fallback absolute channel can both reach
`Active`, both report `ReadyOrErrored`, and the assertion of
`SensorsReadyOrErrored` is violated. -/
theorem claim_C1_counterexample :
    (Pump.run (Pump.create false)
        [Event.sendStart, Event.resolveRel false, Event.sendStart,
         Event.resolveAbs true, Event.resolveRel true]).relative_orientation_sensor_.sensor_state
        = SensorState.Active ∧
    (Pump.run (Pump.create false)
        [Event.sendStart, Event.resolveRel false, Event.sendStart,
         Event.resolveAbs true, Event.resolveRel true]).absolute_orientation_sensor_.sensor_state
        = SensorState.Active ∧
    (Pump.run (Pump.create false)
        [Event.sendStart, Event.resolveRel false, Event.sendStart,
         Event.resolveAbs true, Event.resolveRel true]).SensorsReadyOrErrored = true ∧
    (Pump.run (Pump.create false)
        [Event.sendStart, Event.resolveRel false, Event.sendStart,
         Event.resolveAbs true, Event.resolveRel true]).atMostOneLive = false := by
  decide

/-- C1 (amended): in every state reachable by a well-scheduled sequence of
`SendStartMessage`, `SendStopMessage`, `DidStartIfPossible`, tick calls
and sensor-request resolutions — one in which no second
`SendStartMessage` occurs without an intervening `SendStopMessage`, the
discipline the external scheduler guarantees — at most one of the two
sensor channels holds a live (`Active`) subscription; in particular,
whenever `SensorsReadyOrErrored` finds both channels `ReadyOrErrored`,
its assertion that not both sensors are live holds. -/
theorem claim_C1_amended (absolute : Bool) (es : List Event)
    (hs : wellScheduled true es = true) :
    ((Pump.create absolute).run es).atMostOneLive = true ∧
    (((Pump.create absolute).run es).SensorsReadyOrErrored = true →
      ((Pump.create absolute).run es).atMostOneLive = true) := by
  have h := InvB_run es (Pump.create absolute) true (InvB_create absolute) hs
  exact ⟨atMostOneLive_of_core _ _ h, fun _ => atMostOneLive_of_core _ _ h⟩

/-- C1 (witness): a concrete well-scheduled trace exercising the
fallback, on which the amended invariant is evaluated. -/
theorem claim_C1_witness :
    wellScheduled true
        [Event.sendStart, Event.resolveRel false, Event.sendStop,
         Event.resolveAbs true, Event.sendStart, Event.resolveRel true,
         Event.tick] = true ∧
    ((Pump.create false).run
        [Event.sendStart, Event.resolveRel false, Event.sendStop,
         Event.resolveAbs true, Event.sendStart, Event.resolveRel true,
         Event.tick]).atMostOneLive = true :=
  ⟨by decide,
   (claim_C1_amended false
      [Event.sendStart, Event.resolveRel false, Event.sendStop,
       Event.resolveAbs true, Event.sendStart, Event.resolveRel true,
       Event.tick] (by decide)).1⟩

/-- A cleared fallback flag falsifies the fallback guard. -/
theorem fallbackCond_of_clear (p : Pump)
    (h : p.fall_back_to_absolute_orientation_sensor_ = false) :
    p.fallbackCond = false := by
  simp [Pump.fallbackCond, h]

/-- No event other than `SendStartMessage` can set the fallback flag. -/
theorem step_fallBack_clear (p : Pump) (e : Event) (hne : e ≠ Event.sendStart)
    (h : p.fall_back_to_absolute_orientation_sensor_ = false) :
    (p.step e).fall_back_to_absolute_orientation_sensor_ = false := by
  cases e with
  | sendStart => exact absurd rfl hne
  | sendStop =>
      simp only [Pump.step, Pump.SendStopMessage]
      split <;> simp [h]
  | didStart =>
      simp only [Pump.step, Pump.DidStartIfPossible]
      split
      · split <;> rfl
      · exact h
  | resolveRel ok =>
      simp only [Pump.step, Pump.DidStartIfPossible]
      split
      · split <;> rfl
      · exact h
  | resolveAbs ok =>
      simp only [Pump.step, Pump.DidStartIfPossible]
      split
      · split <;> rfl
      · exact h
  | tick =>
      simp only [Pump.step, Pump.FireEvent]
      split <;> simp [h]

/-- The fallback flag stays clear along any `SendStartMessage`-free run. -/
theorem run_fallBack_clear (es : List Event) : ∀ p : Pump, Event.sendStart ∉ es →
    p.fall_back_to_absolute_orientation_sensor_ = false →
    (p.run es).fall_back_to_absolute_orientation_sensor_ = false := by
  induction es with
  | nil => intro p _ h; exact h
  | cons e es ih =>
      intro p hmem h
      simp only [List.mem_cons, not_or] at hmem
      exact ih (p.step e) hmem.2 (step_fallBack_clear p e (fun he => hmem.1 he.symm) h)

/-- C2: when `DidStartIfPossible` runs in a state satisfying the fallback
guard — not in absolute mode, relative channel without a live
subscription handle, fallback still pending, provider bound — it clears
the fallback flag and starts the absolute channel (immediately marked
`ShouldSuspend` when a deferred suspend is recorded); along any
continuation of the same start cycle (no further `SendStartMessage`) the
fallback flag stays clear and the fallback guard can never hold again, so
no later relative failure restarts the absolute channel. -/
theorem claim_C2_fallback_at_most_once (p : Pump) (es : List Event)
    (hc : p.fallbackCond = true) (hes : Event.sendStart ∉ es) :
    p.DidStartIfPossible.fall_back_to_absolute_orientation_sensor_ = false ∧
    p.DidStartIfPossible.absolute_orientation_sensor_.sensor_state =
      (if p.should_suspend_absolute_orientation_sensor_ then SensorState.ShouldSuspend
       else p.absolute_orientation_sensor_.sensor_state.startRequest) ∧
    (p.DidStartIfPossible.run es).fall_back_to_absolute_orientation_sensor_ = false ∧
    (p.DidStartIfPossible.run es).fallbackCond = false := by
  have h1 : p.DidStartIfPossible.fall_back_to_absolute_orientation_sensor_ = false := by
    unfold Pump.DidStartIfPossible
    simp only [hc, if_true]
    split <;> rfl
  have h2 : p.DidStartIfPossible.absolute_orientation_sensor_.sensor_state =
      (if p.should_suspend_absolute_orientation_sensor_ then SensorState.ShouldSuspend
       else p.absolute_orientation_sensor_.sensor_state.startRequest) := by
    unfold Pump.DidStartIfPossible
    simp only [hc, if_true]
    by_cases hs : p.should_suspend_absolute_orientation_sensor_ = true <;>
      simp [hs, Channel.startRequest]
  have h3 := run_fallBack_clear es p.DidStartIfPossible hes h1
  exact ⟨h1, h2, h3, fallbackCond_of_clear _ h3⟩

/-- C2 (witness): a pump whose relative channel has just errored with the
fallback pending, followed by a second relative failure and a readiness
check in the same cycle. -/
theorem claim_C2_witness :
    Pump.fallbackCond
      { Pump.create false with
        relative_orientation_sensor_ :=
          { sensor_state := SensorState.Errored, readable := false,
            reading := { timestamp := 0, eulerX := none, eulerY := none, eulerZ := none } },
        sensor_provider_ := true } = true ∧
    Event.sendStart ∉ [Event.resolveRel false, Event.didStart, Event.tick] ∧
    (Pump.run
      (Pump.DidStartIfPossible
        { Pump.create false with
          relative_orientation_sensor_ :=
            { sensor_state := SensorState.Errored, readable := false,
              reading := { timestamp := 0, eulerX := none, eulerY := none, eulerZ := none } },
          sensor_provider_ := true })
      [Event.resolveRel false, Event.didStart, Event.tick]).fallbackCond = false :=
  ⟨by decide, by decide,
   (claim_C2_fallback_at_most_once
      { Pump.create false with
        relative_orientation_sensor_ :=
          { sensor_state := SensorState.Errored, readable := false,
            reading := { timestamp := 0, eulerX := none, eulerY := none, eulerZ := none } },
        sensor_provider_ := true }
      [Event.resolveRel false, Event.didStart, Event.tick]
      (by decide) (by decide)).2.2.2⟩

/-- C3: a stop that finds the relative channel in `ShouldSuspend` with
the fallback still pending records the deferred suspend; when
`DidStartIfPossible` later performs the fallback with the deferred
suspend recorded, the absolute channel is immediately marked
`ShouldSuspend` (not `Active`) and the deferred-suspend flag is
cleared. -/
theorem claim_C3_deferred_suspend :
    (∀ p : Pump,
      p.relative_orientation_sensor_.sensor_state = SensorState.ShouldSuspend →
      p.fall_back_to_absolute_orientation_sensor_ = true →
      p.SendStopMessage.should_suspend_absolute_orientation_sensor_ = true) ∧
    (∀ p : Pump, p.fallbackCond = true →
      p.should_suspend_absolute_orientation_sensor_ = true →
      p.DidStartIfPossible.absolute_orientation_sensor_.sensor_state =
        SensorState.ShouldSuspend ∧
      p.DidStartIfPossible.should_suspend_absolute_orientation_sensor_ = false) := by
  constructor
  · intro p hrel hfb
    unfold Pump.SendStopMessage
    simp [Channel.stopRequest, hrel, hfb, SensorState.stopRequest]
  · intro p hc hsus
    unfold Pump.DidStartIfPossible
    simp [hc, hsus]

/-- C3 (witness): both parts evaluated on concrete pump states. -/
theorem claim_C3_witness :
    (Pump.SendStopMessage
      { Pump.create false with
        relative_orientation_sensor_ :=
          { sensor_state := SensorState.ShouldSuspend, readable := false,
            reading := { timestamp := 0, eulerX := none, eulerY := none, eulerZ := none } } }
      ).should_suspend_absolute_orientation_sensor_ = true ∧
    (Pump.DidStartIfPossible
      { Pump.create false with
        relative_orientation_sensor_ :=
          { sensor_state := SensorState.Errored, readable := false,
            reading := { timestamp := 0, eulerX := none, eulerY := none, eulerZ := none } },
        should_suspend_absolute_orientation_sensor_ := true,
        sensor_provider_ := true }).absolute_orientation_sensor_.sensor_state =
      SensorState.ShouldSuspend :=
  ⟨claim_C3_deferred_suspend.1
     { Pump.create false with
       relative_orientation_sensor_ :=
         { sensor_state := SensorState.ShouldSuspend, readable := false,
           reading := { timestamp := 0, eulerX := none, eulerY := none, eulerZ := none } } }
     (by decide) (by decide),
   (claim_C3_deferred_suspend.2
     { Pump.create false with
       relative_orientation_sensor_ :=
         { sensor_state := SensorState.Errored, readable := false,
           reading := { timestamp := 0, eulerX := none, eulerY := none, eulerZ := none } },
       should_suspend_absolute_orientation_sensor_ := true,
       sensor_provider_ := true }
     (by decide) (by decide)).1⟩

/-- Equal presence and equal value never cross the angle threshold. -/
theorem IsAngleDifferentThreshold_refl (h : Bool) (a : ℚ) :
    IsAngleDifferentThreshold h a h a = false := by
  simp [IsAngleDifferentThreshold, kOrientationThreshold]

/-- C4 (counterexample): two samples with identical (all-absent) presence
flags and identical angle values for which `ShouldFireEvent` returns true
rather than false: the all-null candidate with all sensors active hits the
all-null-event branch. -/
theorem claim_C4_counterexample :
    OrientationData.dflt.alpha =
      (OrientationData.mk 0 0 0 false false false false true).alpha ∧
    OrientationData.dflt.beta =
      (OrientationData.mk 0 0 0 false false false false true).beta ∧
    OrientationData.dflt.gamma =
      (OrientationData.mk 0 0 0 false false false false true).gamma ∧
    OrientationData.dflt.has_alpha =
      (OrientationData.mk 0 0 0 false false false false true).has_alpha ∧
    OrientationData.dflt.has_beta =
      (OrientationData.mk 0 0 0 false false false false true).has_beta ∧
    OrientationData.dflt.has_gamma =
      (OrientationData.mk 0 0 0 false false false false true).has_gamma ∧
    ShouldFireEvent OrientationData.dflt
      (OrientationData.mk 0 0 0 false false false false true) = true := by
  decide

/-- C4 (amended): for every pair of samples A (stored) and B (candidate)
with identical angle values and identical presence flags,
`ShouldFireEvent(A, B)` returns false, provided the candidate has at
least one angle present or its all-sensors-active flag is false (an
all-absent candidate with the flag set instead always fires, by the
all-null-event branch). -/
theorem claim_C4_amended (A B : OrientationData)
    (ha : A.alpha = B.alpha) (hb : A.beta = B.beta) (hg : A.gamma = B.gamma)
    (hpa : A.has_alpha = B.has_alpha) (hpb : A.has_beta = B.has_beta)
    (hpg : A.has_gamma = B.has_gamma)
    (hne : B.has_alpha = true ∨ B.has_beta = true ∨ B.has_gamma = true ∨
      B.all_available_sensors_are_active = false) :
    ShouldFireEvent A B = false := by
  unfold ShouldFireEvent
  by_cases hact : B.all_available_sensors_are_active = true
  · have hsome : (!B.has_alpha && !B.has_beta && !B.has_gamma) = false := by
      rcases hne with h | h | h | h <;> simp [h] <;> simp [h] at hact
    simp only [hact, Bool.not_true, if_false, hsome, Bool.false_eq_true]
    simp [IsSignificantlyDifferent, ha, hb, hg, hpa, hpb, hpg,
      IsAngleDifferentThreshold_refl]
  · simp [Bool.not_eq_true] at hact
    simp [hact]

/-- C4 (witness): the amended statement evaluated at a pair of identical
samples with one angle present. -/
theorem claim_C4_witness :
    (OrientationData.mk 3 4 5 true false false false true).has_alpha = true ∧
    ShouldFireEvent (OrientationData.mk 3 4 5 true false false false true)
      (OrientationData.mk 3 4 5 true false false false true) = false :=
  ⟨rfl,
   claim_C4_amended
     (OrientationData.mk 3 4 5 true false false false true)
     (OrientationData.mk 3 4 5 true false false false true)
     rfl rfl rfl rfl rfl rfl (Or.inl rfl)⟩

/-- C5 (counterexample): on a tick where neither channel has a readable
reading, the built sample's all-sensors-active flag is true even though
the pump is not in absolute mode, so the claim's equality with the
absolute-mode flag fails; the sample's `absolute` field, not its
all-sensors-active flag, is what carries the mode. -/
theorem claim_C5_counterexample :
    (Pump.create false).absolute_ = false ∧
    (Pump.create false).relative_orientation_sensor_.SensorReadingCouldBeRead = false ∧
    (Pump.create false).absolute_orientation_sensor_.SensorReadingCouldBeRead = false ∧
    ((Pump.create false).GetDataFromSharedMemory
        OrientationData.dflt).all_available_sensors_are_active = true := by
  decide

/-- C5 (amended): on a tick where neither channel has a fresh readable
reading (relative not readable or pump in absolute mode, and absolute not
readable), the sample produced by `GetDataFromSharedMemory` has its
all-sensors-active flag true, its `absolute` flag equal to the pump's
absolute-mode flag, and all three angles absent. -/
theorem claim_C5_amended (p : Pump)
    (h1 : p.absolute_ = true ∨
      p.relative_orientation_sensor_.SensorReadingCouldBeRead = false)
    (h2 : p.absolute_orientation_sensor_.SensorReadingCouldBeRead = false) :
    (p.GetDataFromSharedMemory OrientationData.dflt).all_available_sensors_are_active
        = true ∧
    (p.GetDataFromSharedMemory OrientationData.dflt).absolute = p.absolute_ ∧
    (p.GetDataFromSharedMemory OrientationData.dflt).has_alpha = false ∧
    (p.GetDataFromSharedMemory OrientationData.dflt).has_beta = false ∧
    (p.GetDataFromSharedMemory OrientationData.dflt).has_gamma = false := by
  have hcond : (!p.absolute_ &&
      p.relative_orientation_sensor_.SensorReadingCouldBeRead) = false := by
    rcases h1 with h | h <;> simp [h]
  unfold Pump.GetDataFromSharedMemory
  simp [hcond, h2, OrientationData.dflt]

/-- C5 (witness): the amended statement evaluated on a fresh
relative-mode pump with no readable channel. -/
theorem claim_C5_witness :
    ((Pump.create false).relative_orientation_sensor_.SensorReadingCouldBeRead = false ∨
      False) ∧
    ((Pump.create false).GetDataFromSharedMemory
        OrientationData.dflt).absolute = (Pump.create false).absolute_ :=
  ⟨Or.inl (by decide),
   (claim_C5_amended (Pump.create false) (Or.inr (by decide)) (by decide)).2.1⟩

/-- C6: a candidate whose three angles are all absent and whose
all-sensors-active flag is true always makes `ShouldFireEvent` return
true, for every stored last sample, including an all-absent one. -/
theorem claim_C6_all_null_fires (last cand : OrientationData)
    (h1 : cand.has_alpha = false) (h2 : cand.has_beta = false)
    (h3 : cand.has_gamma = false)
    (h4 : cand.all_available_sensors_are_active = true) :
    ShouldFireEvent last cand = true := by
  simp [ShouldFireEvent, h1, h2, h3, h4]

/-- C6 (witness): evaluated with an all-absent stored sample as well. -/
theorem claim_C6_witness :
    (OrientationData.mk 0 0 0 false false false false true).has_alpha = false ∧
    ShouldFireEvent OrientationData.dflt
      (OrientationData.mk 0 0 0 false false false false true) = true :=
  ⟨rfl,
   claim_C6_all_null_fires OrientationData.dflt
     (OrientationData.mk 0 0 0 false false false false true) rfl rfl rfl rfl⟩

/-- The code's per-axis test agrees with the claim's notion of an axis
differing significantly. -/
theorem IsAngleDifferentThreshold_iff (h1 : Bool) (a1 : ℚ) (h2 : Bool) (a2 : ℚ) :
    IsAngleDifferentThreshold h1 a1 h2 a2 = true ↔
      axisDiffersSignificantly h1 a1 h2 a2 := by
  cases h1 <;> cases h2 <;>
    simp [IsAngleDifferentThreshold, axisDiffersSignificantly, abs_sub_comm a1 a2]

/-- C7: for a candidate with all sensors active and at least one angle
present, `ShouldFireEvent` returns true exactly when some axis differs
significantly — its presence flag changed, or both values are present and
differ by at least 0.1 degrees; the boundary is inclusive: a delta of
exactly 0.1 fires and a delta of 0.0999 does not. -/
theorem claim_C7_significant_change :
    (∀ last cand : OrientationData,
      cand.all_available_sensors_are_active = true →
      (cand.has_alpha = true ∨ cand.has_beta = true ∨ cand.has_gamma = true) →
      (ShouldFireEvent last cand = true ↔
        (axisDiffersSignificantly last.has_alpha last.alpha cand.has_alpha cand.alpha ∨
         axisDiffersSignificantly last.has_beta last.beta cand.has_beta cand.beta ∨
         axisDiffersSignificantly last.has_gamma last.gamma cand.has_gamma cand.gamma))) ∧
    ShouldFireEvent (OrientationData.mk 0 0 0 true false false false true)
      (OrientationData.mk (1/10) 0 0 true false false false true) = true ∧
    ShouldFireEvent (OrientationData.mk 0 0 0 true false false false true)
      (OrientationData.mk (999/10000) 0 0 true false false false true) = false := by
  refine ⟨?_, ?_, ?_⟩
  · intro last cand hact hsome
    have hnull : (!cand.has_alpha && !cand.has_beta && !cand.has_gamma) = false := by
      rcases hsome with h | h | h <;> simp [h]
    unfold ShouldFireEvent
    simp only [hact, Bool.not_true, if_false, hnull, Bool.false_eq_true]
    simp [IsSignificantlyDifferent, IsAngleDifferentThreshold_iff, or_assoc]
  · norm_num [ShouldFireEvent, IsSignificantlyDifferent, IsAngleDifferentThreshold,
      kOrientationThreshold]
    rw [abs_of_nonneg (by norm_num : (0:ℚ) ≤ 1 / 10)]
  · norm_num [ShouldFireEvent, IsSignificantlyDifferent, IsAngleDifferentThreshold,
      kOrientationThreshold]
    rw [abs_of_nonneg (by norm_num : (0:ℚ) ≤ 999 / 10000)]
    norm_num

/-- C7 (witness): the equivalence evaluated where only the beta presence
flag changed. -/
theorem claim_C7_witness :
    (OrientationData.mk 0 0 0 false true false false true).has_beta = true ∧
    (ShouldFireEvent OrientationData.dflt
        (OrientationData.mk 0 0 0 false true false false true) = true ↔
      (axisDiffersSignificantly false 0 false 0 ∨
       axisDiffersSignificantly false 0 true 0 ∨
       axisDiffersSignificantly false 0 false 0)) :=
  ⟨rfl,
   claim_C7_significant_change.1 OrientationData.dflt
     (OrientationData.mk 0 0 0 false true false false true)
     rfl (Or.inr (Or.inl rfl))⟩

/-- A candidate with the all-sensors-active flag clear never fires. -/
theorem ShouldFireEvent_inactive (last cand : OrientationData)
    (h : cand.all_available_sensors_are_active = false) :
    ShouldFireEvent last cand = false := by
  simp [ShouldFireEvent, h]

/-- Against the default stored sample, a candidate fires exactly when its
all-sensors-active flag is set. -/
theorem ShouldFireEvent_dflt (d : OrientationData) :
    ShouldFireEvent OrientationData.dflt d = d.all_available_sensors_are_active := by
  unfold ShouldFireEvent
  cases hact : d.all_available_sensors_are_active
  · simp
  · cases ha : d.has_alpha <;> cases hb : d.has_beta <;> cases hc : d.has_gamma <;>
      simp [IsSignificantlyDifferent, IsAngleDifferentThreshold, OrientationData.dflt,
        ha, hb, hc]

/-- A tick either changes nothing or delivers exactly one sample. -/
theorem FireEvent_cases (p : Pump) :
    (p.FireEvent.data_ = p.data_ ∧ p.FireEvent.delivered = p.delivered) ∨
    p.FireEvent.delivered.length = p.delivered.length + 1 := by
  by_cases h : ShouldFireEvent p.data_ (p.GetDataFromSharedMemory OrientationData.dflt) = true
  · right
    simp [Pump.FireEvent, h]
  · left
    constructor <;> simp [Pump.FireEvent, h]

/-- Every event other than a stop or a tick leaves the stored sample and
the delivery log untouched. -/
theorem step_keeps_data_delivered (p : Pump) (e : Event)
    (h1 : e ≠ Event.sendStop) (h2 : e ≠ Event.tick) :
    (p.step e).data_ = p.data_ ∧ (p.step e).delivered = p.delivered := by
  cases e with
  | sendStop => exact absurd rfl h1
  | tick => exact absurd rfl h2
  | sendStart =>
      simp only [Pump.step, Pump.SendStartMessage]
      split <;> exact ⟨rfl, rfl⟩
  | didStart =>
      simp only [Pump.step, Pump.DidStartIfPossible]
      split
      · split <;> exact ⟨rfl, rfl⟩
      · exact ⟨rfl, rfl⟩
  | resolveRel ok =>
      simp only [Pump.step, Pump.DidStartIfPossible]
      split
      · split <;> exact ⟨rfl, rfl⟩
      · exact ⟨rfl, rfl⟩
  | resolveAbs ok =>
      simp only [Pump.step, Pump.DidStartIfPossible]
      split
      · split <;> exact ⟨rfl, rfl⟩
      · exact ⟨rfl, rfl⟩

/-- The delivery log never shrinks under a step. -/
theorem step_delivered_mono (p : Pump) (e : Event) :
    p.delivered.length ≤ (p.step e).delivered.length := by
  cases e with
  | tick =>
      show p.delivered.length ≤ p.FireEvent.delivered.length
      rcases FireEvent_cases p with ⟨_, hdel⟩ | hinc
      · rw [hdel]
      · rw [hinc]
        exact Nat.le_succ _
  | sendStop =>
      simp only [Pump.step, Pump.SendStopMessage]
      split <;> exact Nat.le_refl _
  | sendStart =>
      exact le_of_eq (congrArg List.length
        (step_keeps_data_delivered p _ (by decide) (by decide)).2.symm)
  | didStart =>
      exact le_of_eq (congrArg List.length
        (step_keeps_data_delivered p _ (by decide) (by decide)).2.symm)
  | resolveRel ok =>
      exact le_of_eq (congrArg List.length
        (step_keeps_data_delivered p _ (fun h => Event.noConfusion h)
          (fun h => Event.noConfusion h)).2.symm)
  | resolveAbs ok =>
      exact le_of_eq (congrArg List.length
        (step_keeps_data_delivered p _ (fun h => Event.noConfusion h)
          (fun h => Event.noConfusion h)).2.symm)

/-- The delivery log never shrinks under a run. -/
theorem run_delivered_mono (es : List Event) : ∀ p : Pump,
    p.delivered.length ≤ (p.run es).delivered.length := by
  induction es with
  | nil => intro p; exact Nat.le_refl _
  | cons e es ih => intro p; exact Nat.le_trans (step_delivered_mono p e) (ih (p.step e))

/-- Along a stop-free run in which nothing was delivered, the stored last
sample is unchanged. -/
theorem run_data_of_no_delivery (es : List Event) : ∀ p : Pump,
    Event.sendStop ∉ es → (p.run es).delivered.length = p.delivered.length →
    (p.run es).data_ = p.data_ := by
  induction es with
  | nil => intro p _ _; rfl
  | cons e es ih =>
      intro p hmem hlen
      simp only [List.mem_cons, not_or] at hmem
      by_cases ht : e = Event.tick
      · subst ht
        rcases FireEvent_cases p with ⟨hd, hdel⟩ | hinc
        · have hlen' : ((p.step Event.tick).run es).delivered.length =
              (p.step Event.tick).delivered.length := by
            show ((p.step Event.tick).run es).delivered.length =
              p.FireEvent.delivered.length
            rw [hdel]
            exact hlen
          have h1 := ih (p.step Event.tick) hmem.2 hlen'
          show ((p.step Event.tick).run es).data_ = p.data_
          rw [h1]
          exact hd
        · exfalso
          have hmono : p.FireEvent.delivered.length ≤
              (p.run (Event.tick :: es)).delivered.length :=
            run_delivered_mono es (p.step Event.tick)
          rw [hlen, hinc] at hmono
          omega
      · have hs : e ≠ Event.sendStop := fun he => hmem.1 he.symm
        obtain ⟨hd, hdel⟩ := step_keeps_data_delivered p e hs ht
        have hlen' : ((p.step e).run es).delivered.length =
            (p.step e).delivered.length := by
          rw [hdel]
          exact hlen
        have h1 := ih (p.step e) hmem.2 hlen'
        show ((p.step e).run es).data_ = p.data_
        rw [h1]
        exact hd

/-- `SendStopMessage` always resets the stored sample to the default. -/
theorem SendStopMessage_data (p : Pump) :
    p.SendStopMessage.data_ = OrientationData.dflt := rfl

/-- C8: `SendStopMessage` resets the stored last sample to the default
all-absent sample; consequently, after the stop, along any continuation
without a further stop and without any delivery, the first tick whose
sample has the all-sensors-active flag set fires and delivers that sample
to the listener — even when it is numerically identical to the sample
delivered before the stop, since the comparison runs against the reset
default. -/
theorem claim_C8_stop_resets_last (p : Pump) (es : List Event)
    (hes : Event.sendStop ∉ es)
    (hdel : (p.SendStopMessage.run es).delivered.length =
      p.SendStopMessage.delivered.length)
    (hlive : ((p.SendStopMessage.run es).GetDataFromSharedMemory
        OrientationData.dflt).all_available_sensors_are_active = true) :
    p.SendStopMessage.data_ = OrientationData.dflt ∧
    ShouldFireEvent (p.SendStopMessage.run es).data_
      ((p.SendStopMessage.run es).GetDataFromSharedMemory OrientationData.dflt) = true ∧
    (p.SendStopMessage.run es).FireEvent.delivered =
      (p.SendStopMessage.run es).delivered ++
        [(p.SendStopMessage.run es).GetDataFromSharedMemory OrientationData.dflt] := by
  have hdata : (p.SendStopMessage.run es).data_ = OrientationData.dflt := by
    rw [run_data_of_no_delivery es p.SendStopMessage hes hdel]
    exact SendStopMessage_data p
  have hfire : ShouldFireEvent (p.SendStopMessage.run es).data_
      ((p.SendStopMessage.run es).GetDataFromSharedMemory OrientationData.dflt) = true := by
    rw [hdata, ShouldFireEvent_dflt]
    exact hlive
  refine ⟨SendStopMessage_data p, hfire, ?_⟩
  unfold Pump.FireEvent
  rw [if_pos hfire]

/-- C8 (witness): stop a fresh pump, start it again, and observe the next
tick's null-but-active sample being delivered. -/
theorem claim_C8_witness :
    Event.sendStop ∉ [Event.sendStart] ∧
    ((Pump.create false).SendStopMessage.run [Event.sendStart]).FireEvent.delivered =
      ((Pump.create false).SendStopMessage.run [Event.sendStart]).delivered ++
        [((Pump.create false).SendStopMessage.run [Event.sendStart]).GetDataFromSharedMemory
          OrientationData.dflt] :=
  ⟨by decide,
   (claim_C8_stop_resets_last (Pump.create false) [Event.sendStart]
      (by decide) (by decide) (by decide)).2.2⟩

/-- C9: when the selected readable source's reading has timestamp zero,
the built sample equals the default — all-sensors-active false, all
angles absent; and a candidate with all-sensors-active false never fires,
so such a tick changes nothing and delivers nothing. -/
theorem claim_C9_zero_timestamp :
    (∀ p : Pump, p.absolute_ = false →
      p.relative_orientation_sensor_.SensorReadingCouldBeRead = true →
      p.relative_orientation_sensor_.reading.timestamp = 0 →
      p.GetDataFromSharedMemory OrientationData.dflt = OrientationData.dflt) ∧
    (∀ p : Pump,
      (p.absolute_ = true ∨
        p.relative_orientation_sensor_.SensorReadingCouldBeRead = false) →
      p.absolute_orientation_sensor_.SensorReadingCouldBeRead = true →
      p.absolute_orientation_sensor_.reading.timestamp = 0 →
      p.GetDataFromSharedMemory OrientationData.dflt = OrientationData.dflt) ∧
    (∀ last cand : OrientationData, cand.all_available_sensors_are_active = false →
      ShouldFireEvent last cand = false) ∧
    (∀ p : Pump,
      (p.GetDataFromSharedMemory OrientationData.dflt).all_available_sensors_are_active
        = false → p.FireEvent = p) := by
  refine ⟨?_, ?_, ShouldFireEvent_inactive, ?_⟩
  · intro p habs hread hts
    unfold Pump.GetDataFromSharedMemory
    simp [habs, hread, hts, OrientationData.dflt]
  · intro p h1 habs hts
    have hcond : (!p.absolute_ &&
        p.relative_orientation_sensor_.SensorReadingCouldBeRead) = false := by
      rcases h1 with h | h <;> simp [h]
    unfold Pump.GetDataFromSharedMemory
    simp [hcond, habs, hts, OrientationData.dflt]
  · intro p h
    unfold Pump.FireEvent
    rw [if_neg]
    rw [ShouldFireEvent_inactive p.data_ _ h]
    exact Bool.false_ne_true

/-- C9 (witness): an active readable relative channel whose reading still
has timestamp zero yields the default sample and a no-op tick. -/
theorem claim_C9_witness :
    ({ Pump.create false with
        relative_orientation_sensor_ :=
          { sensor_state := SensorState.Active, readable := true,
            reading := { timestamp := 0, eulerX := none, eulerY := none,
                         eulerZ := none } } } :
      Pump).relative_orientation_sensor_.SensorReadingCouldBeRead = true ∧
    Pump.GetDataFromSharedMemory
      { Pump.create false with
        relative_orientation_sensor_ :=
          { sensor_state := SensorState.Active, readable := true,
            reading := { timestamp := 0, eulerX := none, eulerY := none,
                         eulerZ := none } } }
      OrientationData.dflt = OrientationData.dflt :=
  ⟨by decide,
   claim_C9_zero_timestamp.1
     { Pump.create false with
       relative_orientation_sensor_ :=
         { sensor_state := SensorState.Active, readable := true,
           reading := { timestamp := 0, eulerX := none, eulerY := none,
                        eulerZ := none } } }
     (by decide) (by decide) (by decide)⟩

/-- C10: each `FireEvent` invocation delivers at most one sample, and
when `ShouldFireEvent` rejects the tick's sample the pump — in particular
its stored last sample `data_` and its delivery log — is left entirely
unchanged. -/
theorem claim_C10_at_most_one_delivery (p : Pump) :
    p.FireEvent.delivered.length ≤ p.delivered.length + 1 ∧
    (ShouldFireEvent p.data_ (p.GetDataFromSharedMemory OrientationData.dflt) = false →
      p.FireEvent = p ∧ p.FireEvent.data_ = p.data_ ∧
      p.FireEvent.delivered = p.delivered) := by
  constructor
  · rcases FireEvent_cases p with ⟨_, hdel⟩ | hinc
    · rw [hdel]; exact Nat.le_succ _
    · rw [hinc]
  · intro h
    have hid : p.FireEvent = p := by
      unfold Pump.FireEvent
      rw [if_neg]
      rw [h]
      exact Bool.false_ne_true
    exact ⟨hid, by rw [hid], by rw [hid]⟩

/-- C10 (witness): a tick whose sample is rejected (stale zero-timestamp
reading) leaves the pump unchanged. -/
theorem claim_C10_witness :
    ShouldFireEvent
      ({ Pump.create false with
          relative_orientation_sensor_ :=
            { sensor_state := SensorState.Active, readable := true,
              reading := { timestamp := 0, eulerX := none, eulerY := none,
                           eulerZ := none } } } : Pump).data_
      (Pump.GetDataFromSharedMemory
        { Pump.create false with
          relative_orientation_sensor_ :=
            { sensor_state := SensorState.Active, readable := true,
              reading := { timestamp := 0, eulerX := none, eulerY := none,
                           eulerZ := none } } }
        OrientationData.dflt) = false ∧
    Pump.FireEvent
      { Pump.create false with
        relative_orientation_sensor_ :=
          { sensor_state := SensorState.Active, readable := true,
            reading := { timestamp := 0, eulerX := none, eulerY := none,
                         eulerZ := none } } } =
      { Pump.create false with
        relative_orientation_sensor_ :=
          { sensor_state := SensorState.Active, readable := true,
            reading := { timestamp := 0, eulerX := none, eulerY := none,
                         eulerZ := none } } } :=
  ⟨by decide,
   (claim_C10_at_most_one_delivery
      { Pump.create false with
        relative_orientation_sensor_ :=
          { sensor_state := SensorState.Active, readable := true,
            reading := { timestamp := 0, eulerX := none, eulerY := none,
                         eulerZ := none } } }).2 (by decide) |>.1⟩

end DeviceOrientation
